import Mathlib

/-!
Shallow embedding of `src/main.py` (automated intrinsic value analyzer).

Conventions of the embedding:
* Exact rational arithmetic (`ℚ`) stands in for Python floats.
* A provider cell that is missing or NaN is `none`; `pd.isna` on a fetched
  scalar is modelled by the scalar being `none`.
* For the "Free Cash Flow" row of the cash-flow statement the code
  distinguishes "row absent" (triggers the fallback) from "row present but
  value NaN" (caught by the `pd.isna` check), so that row is a two-level
  `Option`.
* For the operating-cash-flow and capital-expenditure rows, "row absent"
  (a `KeyError`, caught by the outer `except` returning `(None, None)`)
  and "value NaN" (caught by `pd.isna`, also returning `(None, None)`)
  are observationally identical, so one `Option` level suffices.
* A raised provider exception is the `fetchError` flag; the outer
  `try/except` of `compute_intrinsic_value` turns it into `(None, None)`.
-/

set_option autoImplicit false

namespace IntrinsicValue

/-- The three DCF assumptions bound at lines 28-30 of `main.py`. -/
structure AssumptionSet where
  shortTermGrowth : ℚ
  discountRate : ℚ
  perpetualGrowth : ℚ
deriving DecidableEq

/-- The constants hardcoded in `compute_intrinsic_value`:
`short_term_growth = 0.05`, `discount_rate = 0.07`, `perpetual_growth = 0.025`. -/
def codeAssumptions : AssumptionSet :=
  { shortTermGrowth := 5 / 100
    discountRate := 7 / 100
    perpetualGrowth := 25 / 1000 }

/-- Snapshot of everything `compute_intrinsic_value` and `fetch_pe_ratio`
read from the provider for one ticker (`stock.cashflow` and `stock.info`). -/
structure StockData where
  /-- The "Free Cash Flow" row: outer `none` = row absent from the index,
  inner `none` = row present but its latest value is NaN. -/
  fcfRow : Option (Option ℚ)
  /-- Latest "Total Cash From Operating Activities" value; `none` = row
  missing or NaN. -/
  opCash : Option ℚ
  /-- Latest "Capital Expenditures" value; `none` = row missing or NaN. -/
  capex : Option ℚ
  /-- `info['totalDebt']`; `none` = key absent. -/
  totalDebt : Option ℚ
  /-- `info['totalCash']`; `none` = key absent. -/
  totalCash : Option ℚ
  /-- `info['sharesOutstanding']`; `none` = key absent. -/
  shares : Option ℚ
  /-- `info['currentPrice']`; `none` = key absent. -/
  currentPrice : Option ℚ
  /-- `info['regularMarketPrice']`; `none` = key absent. -/
  regularMarketPrice : Option ℚ
  /-- `info['trailingPE']`; `none` = key absent. -/
  trailingPE : Option ℚ
  /-- `true` when the provider raises for this ticker. -/
  fetchError : Bool
deriving DecidableEq

/-- Lines 18-23 of `main.py`: the base free-cash-flow scalar.
If the "Free Cash Flow" row exists its latest value is used (possibly NaN,
i.e. inner `none`); otherwise `op_cash + capex` over the fallback rows, and
a missing fallback row raises (`none` here, folded into the error return). -/
def normalized_fcf (d : StockData) : Option ℚ :=
  match d.fcfRow with
  | some v => v
  | none =>
    match d.opCash, d.capex with
    | some oc, some cx => some (oc + cx)
    | _, _ => none

/-- Line 32 of `main.py`:
`projected_fcf = [fcf * (1 + short_term_growth)**i for i in range(1, 6)]`. -/
def projected_fcf (a : AssumptionSet) (fcf : ℚ) : List ℚ :=
  (List.range 5).map (fun i => fcf * (1 + a.shortTermGrowth) ^ (i + 1))

/-- Line 33 of `main.py`: terminal value from the last projected flow. -/
def terminal_value (a : AssumptionSet) (lastFcf : ℚ) : ℚ :=
  lastFcf * (1 + a.perpetualGrowth) / (a.discountRate - a.perpetualGrowth)

/-- Lines 32-37 of `main.py`: project, compute terminal value, discount each
flow by `(1 + discount_rate)**(i+1)` and the terminal value by
`(1 + discount_rate)**5`, and sum. -/
def enterprise_value (a : AssumptionSet) (fcf : ℚ) : ℚ :=
  let proj := projected_fcf a fcf
  let tv := terminal_value a (proj.getLastD 0)
  let discounted := proj.enum.map (fun p => p.2 / (1 + a.discountRate) ^ (p.1 + 1))
  discounted.sum + tv / (1 + a.discountRate) ^ 5

/-- Line 42 of `main.py`: `equity_value = enterprise_value - total_debt + cash_equiv`. -/
def equity_value (ev totalDebt cashEquiv : ℚ) : ℚ :=
  ev - totalDebt + cashEquiv

/-- Line 47 of `main.py`: `intrinsic_per_share = equity_value / shares`. -/
def intrinsic_per_share (equity shares : ℚ) : ℚ :=
  equity / shares

/-- Lines 10-52 of `main.py`, `compute_intrinsic_value`: returns the pair
`(intrinsic_value_per_share, current_price)`, each `none` standing for
Python `None`.  Every failure path returns `(none, none)`. -/
def compute_intrinsic_value (d : StockData) : Option ℚ × Option ℚ :=
  if d.fetchError then (none, none)
  else
    match normalized_fcf d with
    | none => (none, none)
    | some fcf =>
      if fcf ≤ 0 then (none, none)
      else
        let ev := enterprise_value codeAssumptions fcf
        let debt := d.totalDebt.getD 0
        let cash := d.totalCash.getD 0
        let equity := equity_value ev debt cash
        match d.shares with
        | none => (none, none)
        | some s =>
          if s = 0 then (none, none)
          else
            let price :=
              match d.currentPrice with
              | some p => some p
              | none => d.regularMarketPrice
            (some (intrinsic_per_share equity s), price)

/-- Line 103 of `main.py`:
`margin = (1 - (price / intrinsic)) * 100 if intrinsic > 0 else -100`. -/
def margin_of_safety (intrinsic price : ℚ) : ℚ :=
  if 0 < intrinsic then (1 - price / intrinsic) * 100 else -100

/-- Line 104 of `main.py`:
`verdict = "Undervalued" if intrinsic > price else "Overvalued"`. -/
def dcf_verdict (intrinsic price : ℚ) : String :=
  if price < intrinsic then "Undervalued" else "Overvalued"

/-- One dictionary appended by `analyze_company_group` (lines 105-111). -/
structure DcfRow where
  ticker : String
  intrinsicValue : ℚ
  currentPrice : ℚ
  marginOfSafety : ℚ
  verdict : String
deriving DecidableEq

/-- Lines 94-112 of `main.py`, `analyze_company_group`: a row is appended
only when both intrinsic value and price came back non-`None`; failed
tickers are skipped.  `fetch` models the provider. -/
def analyze_company_group (fetch : String → StockData) : List String → List DcfRow
  | [] => []
  | t :: ts =>
    match compute_intrinsic_value (fetch t) with
    | (some intrinsic, some price) =>
      { ticker := t
        intrinsicValue := intrinsic
        currentPrice := price
        marginOfSafety := margin_of_safety intrinsic price
        verdict := dcf_verdict intrinsic price } :: analyze_company_group fetch ts
    | _ => analyze_company_group fetch ts

/-- Lines 115-126 of `main.py`, `fetch_pe_ratio`: `info.get('trailingPE', None)`,
with any provider exception mapped to `None`. -/
def fetch_pe (d : StockData) : Option ℚ :=
  if d.fetchError then none else d.trailingPE

/-- Line 136 of `main.py`:
`"High P/E" if pe and pe > 25 else ("Low P/E" if pe else "N/A")`.
Python truthiness: `None` and `0.0` are falsy, every other float is truthy. -/
def pe_verdict (pe : Option ℚ) : String :=
  match pe with
  | none => "N/A"
  | some v => if v ≠ 0 ∧ 25 < v then "High P/E" else if v ≠ 0 then "Low P/E" else "N/A"

/-- Line 139 of `main.py`: `f"{pe:.2f}" if pe else "N/A"` — the displayed
ratio, `none` standing for the string `"N/A"` (note `0.0` is falsy). -/
def pe_display (pe : Option ℚ) : Option ℚ :=
  match pe with
  | none => none
  | some v => if v = 0 then none else some v

/-- One dictionary appended by `analyze_with_multiples` (lines 137-141). -/
structure PeRow where
  ticker : String
  peValue : Option ℚ
  peVerdict : String
deriving DecidableEq

/-- Lines 128-142 of `main.py`, `analyze_with_multiples`: appends one row
for every ticker, failed or not. -/
def analyze_with_multiples (fetch : String → StockData) : List String → List PeRow
  | [] => []
  | t :: ts =>
    let pe := fetch_pe (fetch t)
    { ticker := t
      peValue := pe_display pe
      peVerdict := pe_verdict pe } :: analyze_with_multiples fetch ts

/-- One combined dictionary of the main block (lines 154-158): a copy of a
DCF row with the "P/E Ratio" and "P/E Verdict" keys of a P/E row added.
Only those two keys are copied from the P/E row; its "Ticker" is dropped. -/
structure CombinedRow where
  ticker : String
  intrinsicValue : ℚ
  currentPrice : ℚ
  marginOfSafety : ℚ
  verdict : String
  peValue : Option ℚ
  peVerdict : String
deriving DecidableEq

/-- Lines 153-158 (and 163-168) of `main.py`: pair the two summaries
positionally with `zip` and merge each pair. -/
def combine_reports (dcf : List DcfRow) (pe : List PeRow) : List CombinedRow :=
  (dcf.zip pe).map fun p =>
    { ticker := p.1.ticker
      intrinsicValue := p.1.intrinsicValue
      currentPrice := p.1.currentPrice
      marginOfSafety := p.1.marginOfSafety
      verdict := p.1.verdict
      peValue := p.2.peValue
      peVerdict := p.2.peVerdict }

/-- `true` exactly when `analyze_company_group` would append a row for this
outcome of `compute_intrinsic_value` (line 102 of `main.py`). -/
def valuation_ok (r : Option ℚ × Option ℚ) : Bool :=
  r.1.isSome && r.2.isSome


/-! ### Concrete provider snapshots used as test inputs -/

/-- A ticker for which every stage succeeds: direct FCF line 100, no debt or
cash keys needed, 10 shares, price 5, trailing P/E 30. -/
def goodStock : StockData :=
  { fcfRow := some (some 100), opCash := none, capex := none,
    totalDebt := some 0, totalCash := some 0, shares := some 10,
    currentPrice := some 5, regularMarketPrice := none,
    trailingPE := some 30, fetchError := false }

/-- A ticker whose direct FCF line is negative, so the DCF valuation fails;
its trailing P/E is 10. -/
def badStock : StockData :=
  { fcfRow := some (some (-1)), opCash := none, capex := none,
    totalDebt := none, totalCash := none, shares := some 10,
    currentPrice := some 5, regularMarketPrice := none,
    trailingPE := some 10, fetchError := false }

/-- A ticker with no direct FCF line, operating cash flow 100 and a
capital-expenditure line of 20. -/
def fallbackStock : StockData :=
  { fcfRow := none, opCash := some 100, capex := some 20,
    totalDebt := none, totalCash := none, shares := some 10,
    currentPrice := some 5, regularMarketPrice := none,
    trailingPE := none, fetchError := false }

/-- A ticker whose `sharesOutstanding` key is absent. -/
def noSharesStock : StockData :=
  { fcfRow := some (some 100), opCash := none, capex := none,
    totalDebt := none, totalCash := none, shares := none,
    currentPrice := some 5, regularMarketPrice := none,
    trailingPE := none, fetchError := false }

/-- A two-ticker provider: "AAA" maps to `badStock`, everything else to
`goodStock`. -/
def demoFetch : String → StockData :=
  fun t => if t = "AAA" then badStock else goodStock

/-! ### Helper lemmas -/

/-- Closed form of `enterprise_value`: the five discounted projected flows
plus the discounted terminal value. -/
theorem enterprise_value_eq (a : AssumptionSet) (F : ℚ) :
    enterprise_value a F =
      F * (1 + a.shortTermGrowth) ^ 1 / (1 + a.discountRate) ^ 1
      + F * (1 + a.shortTermGrowth) ^ 2 / (1 + a.discountRate) ^ 2
      + F * (1 + a.shortTermGrowth) ^ 3 / (1 + a.discountRate) ^ 3
      + F * (1 + a.shortTermGrowth) ^ 4 / (1 + a.discountRate) ^ 4
      + F * (1 + a.shortTermGrowth) ^ 5 / (1 + a.discountRate) ^ 5
      + F * (1 + a.shortTermGrowth) ^ 5 * (1 + a.perpetualGrowth)
          / (a.discountRate - a.perpetualGrowth) / (1 + a.discountRate) ^ 5 := by
  have h5 : List.range 5 = [0, 1, 2, 3, 4] := rfl
  simp only [enterprise_value, projected_fcf, terminal_value, h5, List.map_cons,
    List.map_nil, List.enum, List.enumFrom, List.getLastD_cons, List.getLastD_nil,
    List.sum_cons, List.sum_nil]
  ring


/-! ### Claims -/

/-- C1 counterexample: with the direct FCF line absent, operating cash flow
100 and a capital-expenditure line of 20, the code's base free cash flow is
`op_cash + capex = 120`, not `op_cash - capex = 80`. -/
theorem c1_fallback_subtraction_cex :
    normalized_fcf fallbackStock = some 120 ∧
    normalized_fcf fallbackStock ≠ some (100 - 20) := by
  constructor <;> norm_num [normalized_fcf, fallbackStock]

/-- C1 (amended): when the direct free-cash-flow line is absent and both
fallback lines are present, the base free cash flow is
`operatingCashFlow + capitalExpenditure` as the lines are reported (the
provider reports capital expenditure as a negative amount, so the addition
realises "operating cash flow minus capital spending"). -/
theorem c1_fallback_sum (d : StockData) (oc cx : ℚ)
    (h1 : d.fcfRow = none) (h2 : d.opCash = some oc) (h3 : d.capex = some cx) :
    normalized_fcf d = some (oc + cx) := by
  simp [normalized_fcf, h1, h2, h3]

/-- C1 witness: the amended fallback formula evaluated on `fallbackStock`. -/
theorem c1_fallback_sum_witness :
    normalized_fcf fallbackStock = some (100 + 20) :=
  c1_fallback_sum fallbackStock 100 20 rfl rfl rfl

/-- C2 counterexample: one input ticker whose valuation fails yields a
DCF report with zero entries, not one entry with a descriptive verdict. -/
theorem c2_batch_one_per_ticker_cex :
    (["AAPL"] : List String).length = 1 ∧
    (analyze_company_group (fun _ => badStock) ["AAPL"]).length = 0 := by
  constructor <;> rfl

/-- C2 (amended): the batch runner appends one row per ticker whose
valuation returns both an intrinsic value and a price, and silently skips
every other ticker (the loop itself never aborts), so the report over the
input list has exactly as many entries as there are successfully valued
tickers — not one per input ticker. -/
theorem c2_batch_length (fetch : String → StockData) (ts : List String) :
    (analyze_company_group fetch ts).length =
      ts.countP (fun t => valuation_ok (compute_intrinsic_value (fetch t))) := by
  induction ts with
  | nil => rfl
  | cons t ts ih =>
    rcases hc : compute_intrinsic_value (fetch t) with ⟨iv, pr⟩
    cases iv <;> cases pr <;>
      simp [analyze_company_group, hc, valuation_ok, List.countP_cons, ih]

/-- C3: positional pairing of the two summaries misaligns rows once a DCF
valuation fails.  With tickers ["AAA", "BBB"] where "AAA"'s DCF fails
(negative FCF) and "BBB"'s succeeds, the only combined row carries "BBB"'s
ticker and verdict together with "AAA"'s P/E ratio 10 and P/E verdict
"Low P/E", although "BBB"'s own P/E is 30 with verdict "High P/E". -/
theorem c3_combined_misalignment :
    (combine_reports (analyze_company_group demoFetch ["AAA", "BBB"])
        (analyze_with_multiples demoFetch ["AAA", "BBB"])).map
      (fun r => (r.ticker, r.peValue, r.peVerdict)) = [("BBB", some 10, "Low P/E")] ∧
    fetch_pe (demoFetch "AAA") = some 10 ∧
    pe_verdict (fetch_pe (demoFetch "AAA")) = "Low P/E" ∧
    fetch_pe (demoFetch "BBB") = some 30 ∧
    pe_verdict (fetch_pe (demoFetch "BBB")) = "High P/E" ∧
    (analyze_with_multiples demoFetch ["AAA", "BBB"]).map
      (fun r => (r.ticker, r.peValue, r.peVerdict)) =
      [("AAA", some 10, "Low P/E"), ("BBB", some 30, "High P/E")] := by
  refine ⟨?_, ?_, ?_, ?_, ?_, ?_⟩ <;> rfl

/-- C4: for any assumption set and any positive base flow, the projector
produces the five projected flows `F(1+g)^i`, discounts flow `i` by
`(1+r)^i` and the terminal value by `(1+r)^5`, and sums; and with the
code's perpetual growth 0.025 and discount 0.07, the terminal value on a
last projected flow of 100 is 2277.78 within 0.01. -/
theorem c4_dcf_projector_spec (a : AssumptionSet) (F : ℚ) (hF : 0 < F) :
    projected_fcf a F = [F * (1 + a.shortTermGrowth) ^ 1, F * (1 + a.shortTermGrowth) ^ 2,
      F * (1 + a.shortTermGrowth) ^ 3, F * (1 + a.shortTermGrowth) ^ 4,
      F * (1 + a.shortTermGrowth) ^ 5] ∧
    enterprise_value a F =
      F * (1 + a.shortTermGrowth) ^ 1 / (1 + a.discountRate) ^ 1
      + F * (1 + a.shortTermGrowth) ^ 2 / (1 + a.discountRate) ^ 2
      + F * (1 + a.shortTermGrowth) ^ 3 / (1 + a.discountRate) ^ 3
      + F * (1 + a.shortTermGrowth) ^ 4 / (1 + a.discountRate) ^ 4
      + F * (1 + a.shortTermGrowth) ^ 5 / (1 + a.discountRate) ^ 5
      + terminal_value a (F * (1 + a.shortTermGrowth) ^ 5) / (1 + a.discountRate) ^ 5 ∧
    |terminal_value codeAssumptions 100 - 227778 / 100| ≤ 1 / 100 := by
  refine ⟨by rfl, ?_, ?_⟩
  · rw [enterprise_value_eq a F, terminal_value]
  · have ht : terminal_value codeAssumptions 100 = 20500 / 9 := by
      norm_num [terminal_value, codeAssumptions]
    rw [ht, abs_le]
    constructor <;> norm_num

/-- C4 witness: the terminal-value bound, via the projector theorem at the
code's assumptions and base flow 1. -/
theorem c4_dcf_projector_spec_witness :
    |terminal_value codeAssumptions 100 - 227778 / 100| ≤ 1 / 100 :=
  (c4_dcf_projector_spec codeAssumptions 1 (by norm_num)).2.2

/-- C5: margin of safety is `(1 - P/V) * 100` for positive intrinsic value
and the sentinel -100 otherwise; the verdict is "Undervalued" exactly when
`V > P` strictly, so a tie yields "Overvalued"; and V = 8.50, P = 10 gives
margin -300/17 (which is -17.65 to two decimals) and verdict "Overvalued". -/
theorem c5_valuation_verdict_spec (V P : ℚ) :
    (0 < V → margin_of_safety V P = (1 - P / V) * 100) ∧
    (V ≤ 0 → margin_of_safety V P = -100) ∧
    (dcf_verdict V P = "Undervalued" ↔ P < V) ∧
    (V = P → dcf_verdict V P = "Overvalued") ∧
    margin_of_safety (17 / 2) 10 = -300 / 17 ∧
    |margin_of_safety (17 / 2) 10 + 1765 / 100| < 1 / 200 ∧
    dcf_verdict (17 / 2) 10 = "Overvalued" := by
  have hm : margin_of_safety (17 / 2) 10 = -300 / 17 := by
    rw [margin_of_safety, if_pos (by norm_num : (0 : ℚ) < 17 / 2)]
    norm_num
  refine ⟨fun h => ?_, fun h => ?_, ?_, fun h => ?_, hm, ?_,
    by rw [dcf_verdict, if_neg (by norm_num : ¬ (10 : ℚ) < 17 / 2)]⟩
  · rw [margin_of_safety, if_pos h]
  · rw [margin_of_safety, if_neg (not_lt.mpr h)]
  · constructor
    · intro hs
      by_cases hpv : P < V
      · exact hpv
      · rw [dcf_verdict, if_neg hpv] at hs
        exact absurd hs (by decide)
    · intro hpv
      rw [dcf_verdict, if_pos hpv]
  · rw [dcf_verdict, if_neg (by rw [h]; exact lt_irrefl P)]
  · rw [hm, abs_lt]
    constructor <;> norm_num

/-- C5 witness: the positive-intrinsic-value margin formula at V = 8.50,
P = 10. -/
theorem c5_valuation_verdict_spec_witness :
    margin_of_safety (17 / 2) 10 = (1 - 10 / (17 / 2)) * 100 :=
  (c5_valuation_verdict_spec (17 / 2) 10).1 (by norm_num)

/-- C6 counterexample: a present negative trailing P/E of -5 is truthy in
Python, so the code classifies it "Low P/E", not "N/A" (Unavailable). -/
theorem c6_negative_pe_cex :
    pe_verdict (some (-5)) = "Low P/E" ∧ pe_verdict (some (-5)) ≠ "N/A" := by
  have h1 : pe_verdict (some (-5)) = "Low P/E" := by norm_num [pe_verdict]
  refine ⟨h1, ?_⟩
  rw [h1]
  decide

/-- C6 (amended): the classification is "High P/E" when the ratio is
present, nonzero and above 25; "Low P/E" when present, nonzero and at most
25 — including every negative ratio; and "N/A" only when the ratio is
absent or exactly zero. -/
theorem c6_pe_verdict_amended (v : ℚ) :
    pe_verdict none = "N/A" ∧
    pe_verdict (some 0) = "N/A" ∧
    (v ≠ 0 → 25 < v → pe_verdict (some v) = "High P/E") ∧
    (v ≠ 0 → v ≤ 25 → pe_verdict (some v) = "Low P/E") ∧
    (v < 0 → pe_verdict (some v) = "Low P/E") := by
  refine ⟨by rfl, by rfl, fun h1 h2 => ?_, fun h1 h2 => ?_, fun h => ?_⟩
  · simp only [pe_verdict]
    rw [if_pos ⟨h1, h2⟩]
  · simp only [pe_verdict]
    rw [if_neg (fun hc => absurd hc.2 (not_lt.mpr h2)), if_pos h1]
  · simp only [pe_verdict]
    rw [if_neg (fun hc => absurd hc.2 (not_lt.mpr (by linarith : v ≤ 25))),
      if_pos (ne_of_lt h)]

/-- C6 witness: a negative ratio of -3 is classified "Low P/E" by the
amended classification. -/
theorem c6_pe_verdict_amended_witness :
    pe_verdict (some (-3)) = "Low P/E" :=
  (c6_pe_verdict_amended (-3)).2.2.2.2 (by norm_num)

/-- C7: the equity bridge divides `enterpriseValue - totalDebt + cash` by
the share count, with missing debt and cash keys defaulting to 0; the
pipeline output for a successfully valued ticker is exactly that quotient;
and E=1000, D=200, C=50, S=100 gives 8.50. -/
theorem c7_equity_bridge_spec (d : StockData) (F s E D C S : ℚ)
    (hfe : d.fetchError = false) (hfcf : normalized_fcf d = some F) (hF : 0 < F)
    (hs : d.shares = some s) (hs0 : s ≠ 0) (hS : S ≠ 0) :
    (compute_intrinsic_value d).1 =
      some ((enterprise_value codeAssumptions F - d.totalDebt.getD 0
        + d.totalCash.getD 0) / s) ∧
    intrinsic_per_share (equity_value E D C) S = (E - D + C) / S ∧
    intrinsic_per_share (equity_value 1000 200 50) 100 = 17 / 2 := by
  refine ⟨?_, by rw [intrinsic_per_share, equity_value],
    by norm_num [intrinsic_per_share, equity_value]⟩
  simp [compute_intrinsic_value, hfe, hfcf, hs, hs0, not_le.mpr hF,
    equity_value, intrinsic_per_share]

/-- C7 witness: the bridge equalities evaluated on `goodStock` and the
numbers from the spec example. -/
theorem c7_equity_bridge_spec_witness :
    (compute_intrinsic_value goodStock).1 =
      some ((enterprise_value codeAssumptions 100 - goodStock.totalDebt.getD 0
        + goodStock.totalCash.getD 0) / 10) ∧
    intrinsic_per_share (equity_value 1000 200 50) 100 = (1000 - 200 + 50) / 100 ∧
    intrinsic_per_share (equity_value 1000 200 50) 100 = 17 / 2 :=
  c7_equity_bridge_spec goodStock 100 10 1000 200 50 100 rfl rfl (by norm_num)
    rfl (by norm_num) (by norm_num)

/-- C8 counterexample: the assumption set (growth 0.05, discount -9,
perpetual growth -10) satisfies discountRate > perpetualGrowthRate, and the
base flow 1 is positive, yet the enterprise value is negative — the claim's
hypotheses do not rule out rates below -100%. -/
theorem c8_positive_ev_cex :
    ((-10 : ℚ) < -9) ∧ ((0 : ℚ) < 1) ∧
    enterprise_value
      { shortTermGrowth := 1 / 20, discountRate := -9, perpetualGrowth := -10 } 1 < 0 := by
  refine ⟨by norm_num, by norm_num, ?_⟩
  rw [enterprise_value_eq]
  norm_num

/-- C8 (amended): with the additional standing assumptions that the
short-term growth rate exceeds -100% and the perpetual growth rate is at
least -100% — both hold for every rate the program uses — discount rate
strictly above perpetual growth and a positive base flow give a strictly
positive (and, in exact rational arithmetic, automatically finite)
enterprise value. -/
theorem c8_positive_ev (a : AssumptionSet) (F : ℚ)
    (hg : -1 < a.shortTermGrowth) (hpg : -1 ≤ a.perpetualGrowth)
    (hd : a.perpetualGrowth < a.discountRate) (hF : 0 < F) :
    0 < enterprise_value a F := by
  have h1 : 0 < 1 + a.shortTermGrowth := by linarith
  have h2 : 0 ≤ 1 + a.perpetualGrowth := by linarith
  have h3 : 0 < a.discountRate - a.perpetualGrowth := by linarith
  have h4 : 0 < 1 + a.discountRate := by linarith
  rw [enterprise_value_eq]
  have t1 := div_pos (mul_pos hF (pow_pos h1 1)) (pow_pos h4 1)
  have t2 := div_pos (mul_pos hF (pow_pos h1 2)) (pow_pos h4 2)
  have t3 := div_pos (mul_pos hF (pow_pos h1 3)) (pow_pos h4 3)
  have t4 := div_pos (mul_pos hF (pow_pos h1 4)) (pow_pos h4 4)
  have t5 := div_pos (mul_pos hF (pow_pos h1 5)) (pow_pos h4 5)
  have t6 : 0 ≤ F * (1 + a.shortTermGrowth) ^ 5 * (1 + a.perpetualGrowth)
      / (a.discountRate - a.perpetualGrowth) / (1 + a.discountRate) ^ 5 :=
    div_nonneg (div_nonneg (mul_nonneg (mul_pos hF (pow_pos h1 5)).le h2) h3.le)
      (pow_pos h4 5).le
  linarith

/-- C8 witness: the code's own assumption set and base flow 100. -/
theorem c8_positive_ev_witness :
    0 < enterprise_value codeAssumptions 100 :=
  c8_positive_ev codeAssumptions 100 (by norm_num [codeAssumptions])
    (by norm_num [codeAssumptions]) (by norm_num [codeAssumptions]) (by norm_num)

/-- C9: when the share count is absent or zero the valuation returns the
failure outcome `(none, none)` for that ticker, and a computed intrinsic
value in the output can only arise with a present, nonzero share count —
the per-share division is never executed otherwise. -/
theorem c9_no_share_guard (d : StockData) :
    ((d.shares = none ∨ d.shares = some 0) → compute_intrinsic_value d = (none, none)) ∧
    (∀ V : ℚ, (compute_intrinsic_value d).1 = some V →
      ∃ s : ℚ, d.shares = some s ∧ s ≠ 0) := by
  constructor
  · intro h
    unfold compute_intrinsic_value
    split
    · rfl
    · split
      · rfl
      · split
        · rfl
        · rcases h with h | h <;> simp [h]
  · intro V hV
    unfold compute_intrinsic_value at hV
    split at hV
    · simp at hV
    · split at hV
      · simp at hV
      · split at hV
        · simp at hV
        · rcases hs : d.shares with _ | s
          · rw [hs] at hV
            simp at hV
          · rw [hs] at hV
            by_cases h0 : s = 0
            · simp [h0] at hV
            · exact ⟨s, rfl, h0⟩

/-- C9 witness: a ticker whose `sharesOutstanding` key is absent yields the
failure outcome. -/
theorem c9_no_share_guard_witness :
    compute_intrinsic_value noSharesStock = (none, none) :=
  (c9_no_share_guard noSharesStock).1 (Or.inl rfl)

/-- C10: an undefined or non-positive base free cash flow terminates the
valuation with the failure outcome `(none, none)` before any projection,
and a computed intrinsic value in the output can only arise from a present,
strictly positive base flow. -/
theorem c10_invalid_fcf_guard (d : StockData) :
    (normalized_fcf d = none → compute_intrinsic_value d = (none, none)) ∧
    (∀ F : ℚ, normalized_fcf d = some F → F ≤ 0 →
      compute_intrinsic_value d = (none, none)) ∧
    (∀ V : ℚ, (compute_intrinsic_value d).1 = some V →
      ∃ F : ℚ, normalized_fcf d = some F ∧ 0 < F) := by
  refine ⟨fun h => ?_, fun F hF hle => ?_, fun V hV => ?_⟩
  · unfold compute_intrinsic_value
    split
    · rfl
    · rw [h]
  · unfold compute_intrinsic_value
    split
    · rfl
    · rw [hF]
      simp [hle]
  · unfold compute_intrinsic_value at hV
    split at hV
    · simp at hV
    · rcases hn : normalized_fcf d with _ | F
      · rw [hn] at hV
        simp at hV
      · rw [hn] at hV
        by_cases hle : F ≤ 0
        · simp [hle] at hV
        · exact ⟨F, rfl, lt_of_not_le hle⟩

/-- C10 witness: a negative direct free-cash-flow line yields the failure
outcome. -/
theorem c10_invalid_fcf_guard_witness :
    compute_intrinsic_value badStock = (none, none) :=
  (c10_invalid_fcf_guard badStock).2.1 (-1) rfl (by norm_num)

end IntrinsicValue
